import Mathlib

/-!
Shallow embedding of the Talasea watcher Signal & Decision Engine
(src/src/web-server.ts and its CLI twin src/price.js).

Machine floats are modelled as elements of a linear ordered field:
`ℚ` wherever the code is pure rational arithmetic and comparisons, and
`ℝ` for the score pipeline that uses `Math.tanh` / `Math.exp` / `Math.sqrt`.
`null` becomes `Option`; `number` fields that may be `null` become `Option α`.
All modelled values are finite, so `Number.isFinite` checks on already-parsed
numbers hold trivially and `Option.isSome` stands for "non-null and finite".
-/

namespace TalaseaWatcher

/-- The three decision actions of the engine. -/
inductive Action
  | BUY
  | SELL
  | HOLD
deriving DecidableEq, Repr

/-- The eleven auxiliary TGJU feature keys (FEATURE_KEYS in both sources);
`usdt_irr` stands for the source key "usdt-irr". -/
inductive FeatureKey
  | price_dollar_rl
  | ons
  | tether_gold_xaut
  | silver
  | ratio_sp500
  | ratio_silver
  | ratio_xau
  | ratio_crudeoil
  | tgju_gold_irg18
  | tgju_gold_irg18_buy
  | usdt_irr
deriving DecidableEq, Repr

/-- FEATURE_KEYS, in source order. -/
def FEATURE_KEYS : List FeatureKey :=
  [.price_dollar_rl, .ons, .tether_gold_xaut, .silver, .ratio_sp500,
   .ratio_silver, .ratio_xau, .ratio_crudeoil, .tgju_gold_irg18,
   .tgju_gold_irg18_buy, .usdt_irr]

/-- TGJU_RIAL_TO_TOMAN_KEYS: the fields quoted in rial that ingestion divides
by `RIAL_TO_TOMAN_DIVISOR`. -/
def TGJU_RIAL_TO_TOMAN_KEYS : List FeatureKey :=
  [.price_dollar_rl, .silver, .tgju_gold_irg18, .tgju_gold_irg18_buy]

def RIAL_TO_TOMAN_DIVISOR : ℚ := 10

def TALASEA_TO_TOMAN_MULTIPLIER : ℚ := 1000

/-- A per-feature field of a snapshot (type Field in web-server.ts). -/
structure Field (α : Type) where
  value : Option α
  ts : Option α
  ageMin : Option α
  fresh : Bool
  unitAdjusted : Bool
deriving DecidableEq, Repr

/-- A market snapshot (type Snapshot in web-server.ts). `rawPrice`, a display
string in the source, is kept as the parsed numeric raw price. -/
structure Snapshot (α : Type) where
  t : α
  goldPrice : α
  rawPrice : Option α
  fields : FeatureKey → Field α

/-- The nine named model inputs of buildSignal. -/
structure SignalInputs (α : Type) where
  goldMom5 : Option α
  goldMom15 : Option α
  tgjuGoldMom5 : Option α
  dollarMom5 : Option α
  onsMom5 : Option α
  xautMom5 : Option α
  silverMom5 : Option α
  volatility15 : Option α
  divergence : Option α
deriving DecidableEq, Repr

/-- The derived signal (type Signal in web-server.ts). -/
structure Signal (α : Type) where
  score : α
  pUp : α
  confidence : α
  coverage : α
  freshness : α
  freshFields : ℕ
  totalFields : ℕ
  price : α
  timestamp : α
  inputs : SignalInputs α
deriving DecidableEq, Repr

/-- The engine settings (type Settings in web-server.ts / CONFIG in price.js).
All fields are `number` in the source, hence `ℚ` here. -/
structure Settings where
  pollIntervalMs : ℚ
  predictionHorizonMin : ℚ
  freshnessMaxMin : ℚ
  buyThreshold : ℚ
  sellThreshold : ℚ
  minConfidence : ℚ
  actionCooldownMin : ℚ
  historyRetentionHours : ℚ
  maxInMemoryPoints : ℚ
  requestTimeoutMs : ℚ
deriving DecidableEq, Repr

/-- The user portfolio (type Profile in web-server.ts). -/
structure Profile where
  cashIrr : ℚ
  goldGrams : ℚ
  avgBuyPrice : ℚ
  buyFeePct : ℚ
  sellFeePct : ℚ
deriving DecidableEq, Repr

/-- Projected price zones (type Zones in web-server.ts). -/
structure Zones where
  rangePct : ℚ
  driftPct : ℚ
  expectedStop : ℚ
  upLow : ℚ
  upHigh : ℚ
  downLow : ℚ
  downHigh : ℚ
deriving DecidableEq, Repr

/-- Structured rendering of the decision reason strings of chooseDecision /
chooseAdvice. `cooldownActive` carries `Math.ceil` of the remaining minutes,
which the source interpolates into the string. -/
inductive Reason
  | insideNeutralZone
  | confidenceBelowMin
  | pUpAtLeastBuyThreshold
  | pUpAtMostSellThreshold
  | notEnoughCashForOneGram
  | noGoldHoldingsToSell
  | buyEdgeDoesNotClearFees
  | sellEdgeDoesNotClearFees
  | cooldownActive (minutesLeft : ℤ)
deriving DecidableEq, Repr

/-- The per-tick decision (type Decision in web-server.ts). -/
structure Decision where
  action : Action
  reason : Reason
  expectedPrice : ℚ
  buyEdgePct : Option ℚ
  sellEdgePct : Option ℚ
deriving DecidableEq, Repr

/-- A pending reliability prediction. -/
structure PendingPrediction where
  t : ℚ
  basePrice : ℚ
  pUp : ℚ
deriving DecidableEq, Repr

/-- Reliability metrics (type Metrics in web-server.ts). `total` and `correct`
only ever receive `+= 1`, so they are `ℕ`; `brierSum` accumulates squared
probabilities. -/
structure Metrics where
  total : ℕ
  correct : ℕ
  brierSum : ℚ
deriving DecidableEq, Repr

section Helpers

variable {α : Type} [LinearOrderedField α]

/-- clamp(v, min, max) = Math.min(max, Math.max(min, v)). -/
def clamp (v lo hi : α) : α := min hi (max lo v)

/-- Math.round on an already-clamped nonnegative number: JS rounds half
toward positive infinity. -/
def jsRound (q : ℚ) : ℚ := (⌊q + 1/2⌋ : ℤ)

/-- pctChange(current, previous): null when either input is null (or NaN)
or `previous` is falsy (0); otherwise (current - previous)/|previous|. -/
def pctChange (current previous : Option α) : Option α :=
  match current, previous with
  | some c, some p => if p = 0 then none else some ((c - p) / |p|)
  | _, _ => none

/-- mean(values): null on an empty list. -/
def mean (values : List α) : Option α :=
  if values.length = 0 then none else some (values.sum / values.length)

end Helpers

/-- normalizeTalaseaPriceToToman: multiply the Talasea quote by 1000. -/
def normalizeTalaseaPriceToToman (price : Option ℚ) : Option ℚ :=
  price.map (fun p => p * TALASEA_TO_TOMAN_MULTIPLIER)

/-- normalizeTgjuFieldValueToToman(key, value, alreadyAdjusted): rial-quoted
keys are divided by 10 unless the already-adjusted flag is set. -/
def normalizeTgjuFieldValueToToman (key : FeatureKey) (value : Option ℚ)
    (alreadyAdjusted : Bool) : Option ℚ :=
  match value with
  | none => none
  | some v =>
    if key ∈ TGJU_RIAL_TO_TOMAN_KEYS then
      if alreadyAdjusted then some v else some (v / RIAL_TO_TOMAN_DIVISOR)
    else some v

section Series

variable {α : Type} [LinearOrderedField α]

/-- The series names feature extraction looks up: "gold", "tgju_gold", or a
feature key. -/
inductive SeriesKey
  | gold
  | tgju_gold
  | feat (k : FeatureKey)
deriving DecidableEq, Repr

/-- getFieldValue(snapshot, key): the field's value when fresh, else null. -/
def getFieldValue (snapshot : Option (Snapshot α)) (key : FeatureKey) :
    Option α :=
  match snapshot with
  | none => none
  | some s => if (s.fields key).fresh then (s.fields key).value else none

/-- getSeriesValue(snapshot, key): gold price for "gold", the first fresh of
the two irg18 fields for "tgju_gold", getFieldValue for feature keys. -/
def getSeriesValue (snapshot : Option (Snapshot α)) (key : SeriesKey) :
    Option α :=
  match snapshot with
  | none => none
  | some s =>
    match key with
    | .gold => some s.goldPrice
    | .tgju_gold =>
      match getFieldValue (some s) .tgju_gold_irg18 with
      | some v => some v
      | none => getFieldValue (some s) .tgju_gold_irg18_buy
    | .feat k => getFieldValue (some s) k

/-- Newest-to-oldest scan of valueAtOrBefore, over the reversed history. -/
def valueAtOrBeforeRev (field : SeriesKey) (targetTs : α) :
    List (Snapshot α) → Option α
  | [] => none
  | snap :: rest =>
    if snap.t > targetTs then valueAtOrBeforeRev field targetTs rest
    else
      match getSeriesValue (some snap) field with
      | some v => some v
      | none => valueAtOrBeforeRev field targetTs rest

/-- valueAtOrBefore(field, targetTs): scan newest-to-oldest, return the first
defined value at or before the target. -/
def valueAtOrBefore (history : List (Snapshot α)) (field : SeriesKey)
    (targetTs : α) : Option α :=
  valueAtOrBeforeRev field targetTs history.reverse

/-- valueAtOrAfter(targetTs): scan oldest-to-newest, return the first gold
price at or after the target. -/
def valueAtOrAfter (targetTs : α) : List (Snapshot α) → Option α
  | [] => none
  | snap :: rest =>
    if snap.t < targetTs then valueAtOrAfter targetTs rest
    else some snap.goldPrice

/-- momentum(field, lookbackMin): percent change between the latest series
value and the value lookbackMin minutes before the latest snapshot. -/
def momentum (history : List (Snapshot α)) (field : SeriesKey)
    (lookbackMin : α) : Option α :=
  match history.getLast? with
  | none => none
  | some latest =>
    pctChange (getSeriesValue (some latest) field)
      (valueAtOrBefore history field (latest.t - lookbackMin * 60000))

/-- returnsOver(field, lookbackMin): step-to-step percent changes of the
defined series values within the lookback window. -/
def returnsOver (history : List (Snapshot α)) (field : SeriesKey)
    (lookbackMin : α) : List α :=
  match history.getLast? with
  | none => []
  | some latest =>
    let cutoff := latest.t - lookbackMin * 60000
    let values := (history.filter (fun s => cutoff ≤ s.t)).filterMap
      (fun s => getSeriesValue (some s) field)
    (values.zip values.tail).filterMap
      (fun pc => pctChange (some pc.2) (some pc.1))

/-- rollingGoldRatioMean(lookbackMin): mean of goldPrice / tgju_gold over the
window, skipping snapshots whose tgju_gold is missing or zero. -/
def rollingGoldRatioMean (history : List (Snapshot α)) (lookbackMin : α) :
    Option α :=
  match history.getLast? with
  | none => none
  | some latest =>
    let cutoff := latest.t - lookbackMin * 60000
    let ratios := (history.filter (fun s => cutoff ≤ s.t)).filterMap
      (fun s =>
        match getSeriesValue (some s) SeriesKey.tgju_gold with
        | some tg => if tg = 0 then none else some (s.goldPrice / tg)
        | none => (none : Option α))
    mean ratios

end Series

/-! ### Signal scorer (real-valued: Math.exp / Math.tanh / Math.sqrt) -/

/-- stdDev(values): Bessel-corrected sample standard deviation, null for
fewer than two samples; sqrt of max(variance, 0). -/
noncomputable def stdDev (values : List ℝ) : Option ℝ :=
  if values.length < 2 then none
  else
    match mean values with
    | none => none
    | some m =>
      some (Real.sqrt (max
        ((values.map (fun x => (x - m) ^ 2)).sum / (values.length - 1)) 0))

/-- sigmoid(x), written with the numerically-stable branch of the source. -/
noncomputable def sigmoid (x : ℝ) : ℝ :=
  if 0 ≤ x then 1 / (1 + Real.exp (-x))
  else Real.exp x / (1 + Real.exp x)

/-- tanhNorm(v, scale): tanh(v / max(|scale|, 1e-9)), 0 for a null input. -/
noncomputable def tanhNorm (v : Option ℝ) (scale : ℝ) : ℝ :=
  match v with
  | none => 0
  | some x => Real.tanh (x / max |scale| (1 / 1000000000))

/-- Weight of the goldMom5 momentum term in the score. -/
def goldMom5Weight : ℚ := 34 / 100

/-- Weight of the goldMom15 momentum term in the score. -/
def goldMom15Weight : ℚ := 24 / 100

/-- Weight of the tgjuGoldMom5 momentum term in the score. -/
def tgjuGoldMom5Weight : ℚ := 10 / 100

/-- Weight of the dollarMom5 momentum term in the score. -/
def dollarMom5Weight : ℚ := 14 / 100

/-- Weight of the onsMom5 momentum term in the score. -/
def onsMom5Weight : ℚ := 10 / 100

/-- Weight of the xautMom5 momentum term in the score. -/
def xautMom5Weight : ℚ := 8 / 100

/-- Weight of the silverMom5 momentum term in the score. -/
def silverMom5Weight : ℚ := 6 / 100

/-- Coefficient of the divergence term; the source multiplies it by the
negated squashed divergence (`0.14 * -tanhNorm(...)`), so the effective
weight on the squashed divergence is `-divergenceWeight`. -/
def divergenceWeight : ℚ := 14 / 100

/-- Weight of the volatility15 term (`-0.22` in the source). -/
def volatility15Weight : ℚ := -(22 / 100)

/-- The momentum-term weights of the score, in source order. -/
def momentumWeights : List ℚ :=
  [goldMom5Weight, goldMom15Weight, tgjuGoldMom5Weight, dollarMom5Weight,
   onsMom5Weight, xautMom5Weight, silverMom5Weight]

/-- The nine model inputs as a list, in source (Object.values) order. -/
def inputsList {α : Type} (i : SignalInputs α) : List (Option α) :=
  [i.goldMom5, i.goldMom15, i.tgjuGoldMom5, i.dollarMom5, i.onsMom5,
   i.xautMom5, i.silverMom5, i.volatility15, i.divergence]

/-- The confidence computation of buildSignal:
clamp(edge * (0.45 + 0.55*coverage) * (0.5 + 0.5*freshness), 0, 1). -/
def confidenceCalc {α : Type} [LinearOrderedField α]
    (edge coverage freshness : α) : α :=
  clamp (edge * (45 / 100 + 55 / 100 * coverage) *
    (1 / 2 + 1 / 2 * freshness)) 0 1

/-- buildSignal() of web-server.ts, as a function of the prediction horizon
setting, the wall clock (used only for the empty-history timestamp) and the
history window. -/
noncomputable def buildSignal (predictionHorizonMin nowMs : ℝ)
    (history : List (Snapshot ℝ)) : Signal ℝ :=
  let inputs0 : SignalInputs ℝ :=
    { goldMom5 := momentum history .gold 5
      goldMom15 := momentum history .gold 15
      tgjuGoldMom5 := momentum history .tgju_gold 5
      dollarMom5 := momentum history (.feat .price_dollar_rl) 5
      onsMom5 := momentum history (.feat .ons) 5
      xautMom5 := momentum history (.feat .tether_gold_xaut) 5
      silverMom5 := momentum history (.feat .silver) 5
      volatility15 := stdDev (returnsOver history .gold 15)
      divergence := none }
  match history.getLast? with
  | none =>
    { score := 0
      pUp := 1 / 2
      confidence := 0
      coverage := 0
      freshness := 0
      freshFields := 0
      totalFields := FEATURE_KEYS.length
      price := 0
      timestamp := nowMs
      inputs := inputs0 }
  | some latest =>
    let tgjuNow := getSeriesValue (some latest) SeriesKey.tgju_gold
    let ratioMean := rollingGoldRatioMean history
      (max 120 (predictionHorizonMin * 4))
    let divergence : Option ℝ :=
      match tgjuNow, ratioMean with
      | some tg, some rm =>
        if tg = 0 then none
        else pctChange (some (latest.goldPrice / tg)) (some rm)
      | _, _ => none
    let inputs := { inputs0 with divergence := divergence }
    let score :=
      (goldMom5Weight : ℝ) * tanhNorm inputs.goldMom5 (25 / 10000) +
      (goldMom15Weight : ℝ) * tanhNorm inputs.goldMom15 (45 / 10000) +
      (tgjuGoldMom5Weight : ℝ) * tanhNorm inputs.tgjuGoldMom5 (3 / 1000) +
      (dollarMom5Weight : ℝ) * tanhNorm inputs.dollarMom5 (25 / 10000) +
      (onsMom5Weight : ℝ) * tanhNorm inputs.onsMom5 (2 / 1000) +
      (xautMom5Weight : ℝ) * tanhNorm inputs.xautMom5 (2 / 1000) +
      (silverMom5Weight : ℝ) * tanhNorm inputs.silverMom5 (25 / 10000) +
      (divergenceWeight : ℝ) * -tanhNorm inputs.divergence (35 / 10000) +
      (volatility15Weight : ℝ) * tanhNorm inputs.volatility15 (3 / 1000)
    let pUp := sigmoid (score * 2)
    let used := ((inputsList inputs).filter Option.isSome).length
    let coverage := (used : ℝ) / (inputsList inputs).length
    let freshFields :=
      (FEATURE_KEYS.filter (fun k => (latest.fields k).fresh)).length
    let freshness := (freshFields : ℝ) / FEATURE_KEYS.length
    let edge := |pUp - 1 / 2| * 2
    let confidence := confidenceCalc edge coverage freshness
    { score := score
      pUp := pUp
      confidence := confidence
      coverage := coverage
      freshness := freshness
      freshFields := freshFields
      totalFields := FEATURE_KEYS.length
      price := latest.goldPrice
      timestamp := latest.t
      inputs := inputs }

/-! ### Snapshot normalization and construction -/

/-- A raw persisted field row, as fed to normalizeSnapshot when reloading
history from the database (values already parsed from JSON numbers). -/
structure RawField where
  value : Option ℚ
  ts : Option ℚ
  unitAdjusted : Bool
deriving DecidableEq, Repr

/-- A raw persisted snapshot row fed to normalizeSnapshot. -/
structure RawSnapshot where
  t : Option ℚ
  goldPrice : Option ℚ
  rawPrice : Option ℚ
  fields : FeatureKey → Option RawField

/-- Field construction shared by normalizeSnapshot and fetchSnapshot: age in
minutes from the snapshot time, freshness from value presence and the
configured ceiling, and the already-adjusted flag set. -/
def mkField (snapshotTime freshnessMaxMin : ℚ) (value ts : Option ℚ) :
    Field ℚ :=
  let ageMin := ts.map (fun x => (snapshotTime - x) / 60000)
  { value := value
    ts := ts
    ageMin := ageMin
    fresh := value.isSome &&
      (match ageMin with
       | some a => decide (0 ≤ a) && decide (a ≤ freshnessMaxMin)
       | none => false)
    unitAdjusted := true }

/-- The goldPrice recovery of normalizeSnapshot: `raw.goldPrice ??
raw.rawPrice`, rescaled to toman when a legacy row stored the unscaled
Talasea quote (gold/raw ratio in (0.99, 1.01)). -/
def legacyGoldPrice (raw : RawSnapshot) : Option ℚ :=
  let goldPrice0 :=
    match raw.goldPrice with
    | some g => some g
    | none => raw.rawPrice
  match goldPrice0, raw.rawPrice with
  | some g, some r =>
    if r ≠ 0 ∧ 99 / 100 < g / r ∧ g / r < 101 / 100 then
      normalizeTalaseaPriceToToman (some g)
    else some g
  | g, _ => g

/-- normalizeSnapshot(raw): rebuild a typed snapshot from a persisted row.
Null when the timestamp or the gold price is missing; every field is
unit-normalized honoring its persisted already-adjusted flag and re-stamped
`unitAdjusted := true`. -/
def normalizeSnapshot (freshnessMaxMin : ℚ) (raw : RawSnapshot) :
    Option (Snapshot ℚ) :=
  match raw.t, legacyGoldPrice raw with
  | some t, some g =>
    some
      { t := t
        goldPrice := g
        rawPrice := raw.rawPrice
        fields := fun key =>
          let v := raw.fields key
          let rawValue := v.bind (fun f => f.value)
          let value := normalizeTgjuFieldValueToToman key rawValue
            (match v with | some f => f.unitAdjusted | none => false)
          mkField t freshnessMaxMin value (v.bind (fun f => f.ts)) }
  | _, _ => none

/-- One parsed TGJU provider entry: the value field `p` and timestamp `ts`. -/
structure TgjuEntry where
  p : Option ℚ
  ts : Option ℚ
deriving DecidableEq, Repr

/-- fetchSnapshot() of web-server.ts with the network already performed: a
function of the parsed Talasea price and parsed TGJU entries. Throws when
the primary price is unparseable; otherwise builds every field, normalizing
units at ingestion (already-adjusted flag false) and computing freshness. -/
def fetchSnapshot (nowMs freshnessMaxMin : ℚ) (talaseaPrice : Option ℚ)
    (tgju : FeatureKey → TgjuEntry) : Except String (Snapshot ℚ) :=
  match normalizeTalaseaPriceToToman talaseaPrice with
  | none => .error "Talasea price parse failed"
  | some price =>
    .ok
      { t := nowMs
        goldPrice := price
        rawPrice := talaseaPrice
        fields := fun key =>
          let value := normalizeTgjuFieldValueToToman key (tgju key).p false
          mkField nowMs freshnessMaxMin value (tgju key).ts }

/-! ### History store -/

/-- trimHistory(nowMs): drop from the front while the oldest snapshot is
older than the retention horizon, then truncate from the front down to
maxInMemoryPoints. -/
def trimHistory (historyRetentionHours : ℚ) (maxInMemoryPoints : ℕ)
    (nowMs : ℚ) (history : List (Snapshot ℚ)) : List (Snapshot ℚ) :=
  let minTs := nowMs - historyRetentionHours * 60 * 60 * 1000
  let afterRetention := history.dropWhile (fun s => s.t < minTs)
  if maxInMemoryPoints < afterRetention.length then
    afterRetention.drop (afterRetention.length - maxInMemoryPoints)
  else afterRetention

/-! ### Reliability tracker -/

/-- The loop body of updateMetrics(): walk the pending predictions in order,
resolving each one whose horizon has a realized gold price and keeping the
rest pending (in order). -/
def updateMetricsGo (history : List (Snapshot ℚ)) (horizonMs : ℚ) :
    Metrics → List PendingPrediction → Metrics × List PendingPrediction
  | m, [] => (m, [])
  | m, pred :: rest =>
    match valueAtOrAfter (pred.t + horizonMs) history with
    | none =>
      let r := updateMetricsGo history horizonMs m rest
      (r.1, pred :: r.2)
    | some realized =>
      let actualUp : ℚ := if pred.basePrice < realized then 1 else 0
      let predictedUp : ℚ := if 1 / 2 ≤ pred.pUp then 1 else 0
      let p := clamp pred.pUp 0 1
      updateMetricsGo history horizonMs
        { total := m.total + 1
          correct := m.correct + (if predictedUp = actualUp then 1 else 0)
          brierSum := m.brierSum + (p - actualUp) ^ 2 }
        rest

/-- updateMetrics() of web-server.ts (updateReliabilityMetrics in price.js):
resolve every pending prediction against the first gold price at or after
its horizon, accumulating total / correct / brierSum. -/
def updateMetrics (history : List (Snapshot ℚ)) (predictionHorizonMin : ℚ)
    (m : Metrics) (pending : List PendingPrediction) :
    Metrics × List PendingPrediction :=
  updateMetricsGo history (predictionHorizonMin * 60000) m pending

/-! ### Settings and profile updates -/

/-- A Partial<Settings> patch: absent keys leave the field untouched. -/
structure SettingsPatch where
  pollIntervalMs : Option ℚ := none
  predictionHorizonMin : Option ℚ := none
  freshnessMaxMin : Option ℚ := none
  buyThreshold : Option ℚ := none
  sellThreshold : Option ℚ := none
  minConfidence : Option ℚ := none
  actionCooldownMin : Option ℚ := none
  historyRetentionHours : Option ℚ := none
  maxInMemoryPoints : Option ℚ := none
  requestTimeoutMs : Option ℚ := none
deriving DecidableEq, Repr

/-- The spread `{ ...this.settings, ...patch }`. -/
def applyPatch (s : Settings) (p : SettingsPatch) : Settings :=
  { pollIntervalMs := p.pollIntervalMs.getD s.pollIntervalMs
    predictionHorizonMin := p.predictionHorizonMin.getD s.predictionHorizonMin
    freshnessMaxMin := p.freshnessMaxMin.getD s.freshnessMaxMin
    buyThreshold := p.buyThreshold.getD s.buyThreshold
    sellThreshold := p.sellThreshold.getD s.sellThreshold
    minConfidence := p.minConfidence.getD s.minConfidence
    actionCooldownMin := p.actionCooldownMin.getD s.actionCooldownMin
    historyRetentionHours :=
      p.historyRetentionHours.getD s.historyRetentionHours
    maxInMemoryPoints := p.maxInMemoryPoints.getD s.maxInMemoryPoints
    requestTimeoutMs := p.requestTimeoutMs.getD s.requestTimeoutMs }

/-- The range-clamping pass of sanitizeSettings, building `out`. -/
def clampSettings (s : Settings) : Settings :=
  { pollIntervalMs := jsRound (clamp s.pollIntervalMs 10000 3600000)
    predictionHorizonMin := clamp s.predictionHorizonMin 5 1440
    freshnessMaxMin := clamp s.freshnessMaxMin 15 1440
    buyThreshold := clamp s.buyThreshold (1 / 100) (99 / 100)
    sellThreshold := clamp s.sellThreshold (1 / 100) (99 / 100)
    minConfidence := clamp s.minConfidence 0 1
    actionCooldownMin := clamp s.actionCooldownMin 0 360
    historyRetentionHours := clamp s.historyRetentionHours 24 (24 * 365)
    maxInMemoryPoints := jsRound (clamp s.maxInMemoryPoints 1000 1000000)
    requestTimeoutMs := jsRound (clamp s.requestTimeoutMs 3000 60000) }

/-- sanitizeSettings(s): clamp every field to its allowed range, then reject
the result when buyThreshold ≤ sellThreshold (thrown as an Error). -/
def sanitizeSettings (s : Settings) : Except String Settings :=
  let out := clampSettings s
  if out.buyThreshold ≤ out.sellThreshold then
    .error "BUY threshold must be higher than SELL threshold"
  else .ok out

/-- sanitizeProfile (sanitizePortfolio in price.js): floor the holdings at 0
and clamp the fee percentages to [0, 0.2]. -/
def sanitizeProfile (p : Profile) : Profile :=
  { cashIrr := max 0 p.cashIrr
    goldGrams := max 0 p.goldGrams
    avgBuyPrice := max 0 p.avgBuyPrice
    buyFeePct := clamp (max 0 p.buyFeePct) 0 (2 / 10)
    sellFeePct := clamp (max 0 p.sellFeePct) 0 (2 / 10) }

/-- The engine's mutable state relevant to updates: the declared owned data
of the Engine class (timer/log plumbing omitted). -/
structure EngineState where
  settings : Settings
  profile : Profile
  history : List (Snapshot ℚ)
  pendingPredictions : List PendingPrediction
  metrics : Metrics
  lastFetchAt : Option ℚ
  decision : Decision

/-- updateSettings(patch): sanitize `{ ...settings, ...patch }` and commit
the result; a sanitization error propagates before any assignment, so the
engine state is untouched on failure. -/
def updateSettings (e : EngineState) (patch : SettingsPatch) :
    Except String EngineState :=
  match sanitizeSettings (applyPatch e.settings patch) with
  | .error msg => .error msg
  | .ok s => .ok { e with settings := s }

/-! ### Decision policy -/

/-- Math.ceil. -/
def jsCeil (q : ℚ) : ℤ := ⌈q⌉

/-- The threshold step shared by chooseDecision and chooseAdvice: tentative
action and reason from confidence and the pUp thresholds. -/
def thresholdStep (settings : Settings) (signal : Signal ℚ) :
    Action × Reason :=
  if signal.confidence < settings.minConfidence then
    (.HOLD, .confidenceBelowMin)
  else if settings.buyThreshold ≤ signal.pUp then
    (.BUY, .pUpAtLeastBuyThreshold)
  else if signal.pUp ≤ settings.sellThreshold then
    (.SELL, .pUpAtMostSellThreshold)
  else (.HOLD, .insideNeutralZone)

/-- The inventory and fee-edge gates shared by chooseDecision and
chooseAdvice, applied to the tentative action in source order. -/
def inventoryAndEdgeGates (profile : Profile) (buyNowCost : ℚ)
    (buyEdgePct sellEdgePct : Option ℚ) : Action × Reason → Action × Reason
  | (a, r) =>
    let (a, r) :=
      if a = .BUY ∧ profile.cashIrr < buyNowCost then
        (.HOLD, .notEnoughCashForOneGram)
      else (a, r)
    let (a, r) :=
      if a = .SELL ∧ profile.goldGrams ≤ 0 then
        (.HOLD, .noGoldHoldingsToSell)
      else (a, r)
    let nonposEdge : Option ℚ → Bool := fun o =>
      match o with
      | some e => decide (e ≤ 0)
      | none => false
    let (a, r) :=
      if a = .BUY ∧ nonposEdge buyEdgePct then
        (.HOLD, .buyEdgeDoesNotClearFees)
      else (a, r)
    if a = .SELL ∧ nonposEdge sellEdgePct then
      (.HOLD, .sellEdgeDoesNotClearFees)
    else (a, r)

/-- chooseDecision(signal, zones, nowMs) of web-server.ts. Besides its
arguments it reads the profile, the settings, `this.state.lastFetchAt`
(truthiness test: null and 0 are falsy) and the previous decision's action.
Its cooldown gate fires whenever the tentative action is non-HOLD, less than
actionCooldownMin minutes have passed since lastFetchAt, and the previous
decision was non-HOLD. -/
def chooseDecision (settings : Settings) (profile : Profile)
    (lastFetchAt : Option ℚ) (prevDecisionAction : Action)
    (signal : Signal ℚ) (zones : Zones) (nowMs : ℚ) : Decision :=
  let expectedPrice := zones.expectedStop
  let buyNowCost := signal.price * (1 + profile.buyFeePct)
  let sellNowProceeds := signal.price * (1 - profile.sellFeePct)
  let expectedSell := expectedPrice * (1 - profile.sellFeePct)
  let expectedRebuy := expectedPrice * (1 + profile.buyFeePct)
  let buyEdgePct :=
    if 0 < buyNowCost then some ((expectedSell - buyNowCost) / buyNowCost)
    else none
  let sellEdgePct :=
    if 0 < sellNowProceeds then
      some ((sellNowProceeds - expectedRebuy) / sellNowProceeds)
    else none
  let ar := inventoryAndEdgeGates profile buyNowCost buyEdgePct sellEdgePct
    (thresholdStep settings signal)
  let ar :=
    match lastFetchAt with
    | none => ar
    | some lf =>
      if ar.1 ≠ .HOLD ∧ lf ≠ 0 then
        let elapsed := (nowMs - lf) / 60000
        if elapsed < settings.actionCooldownMin ∧
            prevDecisionAction ≠ .HOLD then
          (.HOLD, .cooldownActive (jsCeil (settings.actionCooldownMin -
            elapsed)))
        else ar
      else ar
  { action := ar.1
    reason := ar.2
    expectedPrice := expectedPrice
    buyEdgePct := buyEdgePct
    sellEdgePct := sellEdgePct }

/-- chooseAdvice(signal, zones, nowMs) of price.js. Besides its arguments it
reads CONFIG, the sanitized portfolio, `state.lastAction` (the last non-HOLD
action, "HOLD" initially) and `state.lastActionAt` (compared `!= null`, not
by truthiness). Its cooldown gate fires only on a *change* of action (new
action ≠ lastAction) within actionCooldownMin of lastActionAt. -/
def chooseAdvice (config : Settings) (portfolio : Profile)
    (lastAction : Action) (lastActionAt : Option ℚ) (signal : Signal ℚ)
    (zones : Zones) (nowMs : ℚ) : Decision :=
  let expectedPrice := zones.expectedStop
  let p := sanitizeProfile portfolio
  let buyNowCost := signal.price * (1 + p.buyFeePct)
  let sellNowProceeds := signal.price * (1 - p.sellFeePct)
  let expectedSellProceeds := expectedPrice * (1 - p.sellFeePct)
  let expectedRebuyCost := expectedPrice * (1 + p.buyFeePct)
  let buyEdgePct :=
    if 0 < buyNowCost then
      some ((expectedSellProceeds - buyNowCost) / buyNowCost)
    else none
  let sellEdgePct :=
    if 0 < sellNowProceeds then
      some ((sellNowProceeds - expectedRebuyCost) / sellNowProceeds)
    else none
  let ar := inventoryAndEdgeGates p buyNowCost buyEdgePct sellEdgePct
    (thresholdStep config signal)
  let ar :=
    match lastActionAt with
    | none => ar
    | some la =>
      if ar.1 ≠ .HOLD ∧ ar.1 ≠ lastAction then
        let elapsedMin := (nowMs - la) / 60000
        if elapsedMin < config.actionCooldownMin then
          (.HOLD, .cooldownActive (jsCeil (config.actionCooldownMin -
            elapsedMin)))
        else ar
      else ar
  { action := ar.1
    reason := ar.2
    expectedPrice := expectedPrice
    buyEdgePct := buyEdgePct
    sellEdgePct := sellEdgePct }

/-! ### Concrete example data used by witnesses and counterexamples -/

/-- The engine's default settings (the env fallbacks of both sources). -/
def defaultSettings : Settings :=
  { pollIntervalMs := 60000
    predictionHorizonMin := 30
    freshnessMaxMin := 180
    buyThreshold := 6 / 10
    sellThreshold := 4 / 10
    minConfidence := 2 / 10
    actionCooldownMin := 8
    historyRetentionHours := 720
    maxInMemoryPoints := 50000
    requestTimeoutMs := 15000 }

/-- An entirely absent auxiliary field. -/
def emptyFieldQ : Field ℚ :=
  { value := none, ts := none, ageMin := none, fresh := false,
    unitAdjusted := false }

/-- A bare gold-price snapshot with no auxiliary data. -/
def snapAt (t price : ℚ) : Snapshot ℚ :=
  { t := t, goldPrice := price, rawPrice := none, fields := fun _ => emptyFieldQ }

/-- A profile with ample cash and holdings and zero fees. -/
def exProfile : Profile :=
  { cashIrr := 1000000, goldGrams := 1, avgBuyPrice := 100,
    buyFeePct := 0, sellFeePct := 0 }

/-- All-null signal inputs. -/
def exInputs : SignalInputs ℚ :=
  { goldMom5 := none, goldMom15 := none, tgjuGoldMom5 := none,
    dollarMom5 := none, onsMom5 := none, xautMom5 := none,
    silverMom5 := none, volatility15 := none, divergence := none }

/-- A confident bullish signal at price 100. -/
def exSignal : Signal ℚ :=
  { score := 1, pUp := 9 / 10, confidence := 9 / 10, coverage := 1,
    freshness := 1, freshFields := 11, totalFields := 11, price := 100,
    timestamp := 61000, inputs := exInputs }

/-- Zones whose expected stop is 10% above the current price. -/
def exZones : Zones :=
  { rangePct := 1 / 100, driftPct := 1 / 100, expectedStop := 110,
    upLow := 105, upHigh := 115, downLow := 95, downHigh := 99 }

/-! ### C1 — cooldown gate -/

/-- C1 (code_bug evidence): with the default settings, ample cash, a signal
passing the confidence / threshold / inventory / edge gates (tentative BUY),
a previous decision of BUY and one minute elapsed since lastFetchAt, the
web-server's chooseDecision forces HOLD with a remaining-cooldown reason even
though the tentative action repeats the previous non-HOLD action — while the
CLI twin chooseAdvice, which implements the specified gate (only a *change*
of action within actionCooldownMin of the last action's own timestamp is
gated), returns BUY on the same inputs. -/
theorem chooseDecision_cooldown_gates_repeated_action :
    (chooseDecision defaultSettings exProfile (some 1000) Action.BUY
        exSignal exZones 61000).action = Action.HOLD ∧
    (chooseDecision defaultSettings exProfile (some 1000) Action.BUY
        exSignal exZones 61000).reason = Reason.cooldownActive 7 ∧
    (chooseAdvice defaultSettings exProfile Action.BUY (some 1000)
        exSignal exZones 61000).action = Action.BUY ∧
    (chooseAdvice defaultSettings exProfile Action.BUY (some 1000)
        exSignal exZones 61000).reason = Reason.pUpAtLeastBuyThreshold := by
  refine ⟨?_, ?_, ?_, ?_⟩ <;>
    norm_num [chooseDecision, chooseAdvice, thresholdStep,
      inventoryAndEdgeGates, sanitizeProfile, clamp, jsCeil, defaultSettings,
      exProfile, exSignal, exZones] <;>
    decide

/-! ### C2 — score weights -/

/-- The sum of the magnitudes of the momentum-term weights of the score. -/
def momentumWeightMagnitudeSum : ℚ := (momentumWeights.map (fun w => |w|)).sum

/-- C2 (counterexample): the magnitudes of the momentum-term weights of the
score sum to 1.06, not 1. -/
theorem momentum_weight_magnitudes_sum_ne_one :
    momentumWeightMagnitudeSum = 106 / 100 ∧ momentumWeightMagnitudeSum ≠ 1 := by
  constructor
  · norm_num [momentumWeightMagnitudeSum, momentumWeights, goldMom5Weight,
      goldMom15Weight, tgjuGoldMom5Weight, dollarMom5Weight, onsMom5Weight,
      xautMom5Weight, silverMom5Weight, abs_of_nonneg]
  · norm_num [momentumWeightMagnitudeSum, momentumWeights, goldMom5Weight,
      goldMom15Weight, tgjuGoldMom5Weight, dollarMom5Weight, onsMom5Weight,
      xautMom5Weight, silverMom5Weight, abs_of_nonneg]

/-- C2 (amended): in the score's fixed-weight linear combination of
tanh-squashed features, the magnitudes of the momentum-term weights sum to
1.06, and the divergence and volatility terms carry negative effective
weights (the divergence term enters the score as
`divergenceWeight * -tanhNorm(...)`, hence effective weight
`-divergenceWeight = -0.14`; the volatility weight is `-0.22`). -/
theorem score_weight_structure :
    momentumWeightMagnitudeSum = 106 / 100 ∧
    -divergenceWeight < 0 ∧ volatility15Weight < 0 := by
  refine ⟨?_, ?_, ?_⟩ <;>
    norm_num [momentumWeightMagnitudeSum, momentumWeights, goldMom5Weight,
      goldMom15Weight, tgjuGoldMom5Weight, dollarMom5Weight, onsMom5Weight,
      xautMom5Weight, silverMom5Weight, divergenceWeight, volatility15Weight,
      abs_of_nonneg]

/-! ### C6 — idempotent unit normalization -/

/-- C6: unit normalization is idempotent — normalizing a raw value once at
ingestion and then re-normalizing the result with the already-adjusted flag
set yields the same value (the rial-to-toman division is never applied
twice) — and every field of a snapshot produced by normalizeSnapshot carries
the already-adjusted flag. -/
theorem unit_normalization_idempotent :
    (∀ (key : FeatureKey) (v : ℚ),
      normalizeTgjuFieldValueToToman key
          (normalizeTgjuFieldValueToToman key (some v) false) true =
        normalizeTgjuFieldValueToToman key (some v) false) ∧
    (∀ (fm : ℚ) (raw : RawSnapshot) (snap : Snapshot ℚ),
      normalizeSnapshot fm raw = some snap →
        ∀ key, (snap.fields key).unitAdjusted = true) := by
  constructor
  · intro key v
    by_cases h : key ∈ TGJU_RIAL_TO_TOMAN_KEYS <;>
      simp [normalizeTgjuFieldValueToToman, h]
  · intro fm raw snap h key
    unfold normalizeSnapshot at h
    cases ht : raw.t with
    | none => rw [ht] at h; cases h
    | some t =>
      cases hg : legacyGoldPrice raw with
      | none => rw [ht, hg] at h; cases h
      | some g =>
        rw [ht, hg] at h
        cases h
        simp [mkField]

/-! ### C10 — freshness filter in series lookup -/

/-- C10: the series lookup used by feature extraction returns an auxiliary
field's value exactly when the field is marked fresh (null otherwise); only
the primary gold price is exempt from the filter; consequently a history in
which a field is stale everywhere contributes nothing to momentum or to the
returns underlying volatility. -/
theorem getSeriesValue_freshness_filter :
    (∀ (snap : Snapshot ℚ) (key : FeatureKey),
      getSeriesValue (some snap) (SeriesKey.feat key) =
        if (snap.fields key).fresh then (snap.fields key).value else none) ∧
    (∀ snap : Snapshot ℚ,
      getSeriesValue (some snap) SeriesKey.gold = some snap.goldPrice) ∧
    (∀ (history : List (Snapshot ℚ)) (key : FeatureKey) (lb : ℚ),
      (∀ s ∈ history, (s.fields key).fresh = false) →
        momentum history (SeriesKey.feat key) lb = none ∧
        returnsOver history (SeriesKey.feat key) lb = []) := by
  refine ⟨fun snap key => rfl, fun snap => rfl, ?_⟩
  intro history key lb hstale
  have hval : ∀ s ∈ history,
      getSeriesValue (some s) (SeriesKey.feat key) = (none : Option ℚ) := by
    intro s hs
    simp [getSeriesValue, getFieldValue, hstale s hs]
  constructor
  · unfold momentum
    cases hl : history.getLast? with
    | none => rfl
    | some latest =>
      show pctChange (getSeriesValue (some latest) (SeriesKey.feat key))
        (valueAtOrBefore history (SeriesKey.feat key)
          (latest.t - lb * 60000)) = none
      rw [hval latest (List.mem_of_getLast?_eq_some hl)]
      simp [pctChange]
  · unfold returnsOver
    cases hl : history.getLast? with
    | none => rfl
    | some latest =>
      have hnil : (history.filter
          (fun s => decide (latest.t - lb * 60000 ≤ s.t))).filterMap
          (fun s => getSeriesValue (some s) (SeriesKey.feat key)) = [] := by
        rw [List.filterMap_eq_nil_iff]
        intro s hs
        exact hval s (List.mem_of_mem_filter hs)
      show (((history.filter (fun s => latest.t - lb * 60000 ≤ s.t)).filterMap
          (fun s => getSeriesValue (some s) (SeriesKey.feat key))).zip
          ((history.filter (fun s => latest.t - lb * 60000 ≤ s.t)).filterMap
            (fun s => getSeriesValue (some s) (SeriesKey.feat key))).tail
        ).filterMap (fun pc => pctChange (some pc.2) (some pc.1)) = []
      rw [hnil]
      rfl

/-! ### C3 — updateSettings is atomic with respect to validation -/

/-- C3: updateSettings validates before it applies. Whenever the sanitized
(range-clamped) merge of the current settings with the patch has
buyThreshold ≤ sellThreshold, the call fails with the validation error and
produces no new engine state — the error propagates before the settings
assignment, so the engine (settings included) is exactly as before and no
field of the patch is partially applied; otherwise the whole sanitized
settings object is committed and nothing else in the engine state changes. -/
theorem updateSettings_atomic :
    ∀ (e : EngineState) (patch : SettingsPatch),
      ((clampSettings (applyPatch e.settings patch)).buyThreshold ≤
          (clampSettings (applyPatch e.settings patch)).sellThreshold →
        updateSettings e patch =
          Except.error "BUY threshold must be higher than SELL threshold") ∧
      ((clampSettings (applyPatch e.settings patch)).sellThreshold <
          (clampSettings (applyPatch e.settings patch)).buyThreshold →
        updateSettings e patch =
          Except.ok { e with
            settings := clampSettings (applyPatch e.settings patch) }) := by
  intro e patch
  constructor
  · intro h
    have hs : sanitizeSettings (applyPatch e.settings patch) =
        Except.error "BUY threshold must be higher than SELL threshold" := by
      show (if (clampSettings (applyPatch e.settings patch)).buyThreshold ≤
            (clampSettings (applyPatch e.settings patch)).sellThreshold then
          Except.error "BUY threshold must be higher than SELL threshold"
        else Except.ok (clampSettings (applyPatch e.settings patch))) =
        Except.error "BUY threshold must be higher than SELL threshold"
      rw [if_pos h]
    unfold updateSettings
    rw [hs]
  · intro h
    have hs : sanitizeSettings (applyPatch e.settings patch) =
        Except.ok (clampSettings (applyPatch e.settings patch)) := by
      show (if (clampSettings (applyPatch e.settings patch)).buyThreshold ≤
            (clampSettings (applyPatch e.settings patch)).sellThreshold then
          Except.error "BUY threshold must be higher than SELL threshold"
        else Except.ok (clampSettings (applyPatch e.settings patch))) =
        Except.ok (clampSettings (applyPatch e.settings patch))
      rw [if_neg (not_le.mpr h)]
    unfold updateSettings
    rw [hs]

/-- A patch lowering buyThreshold to 0.3 while sellThreshold stays at the
default 0.4 — sanitization must reject it. -/
def exBadPatch : SettingsPatch := { buyThreshold := some (3 / 10) }

/-- An engine state holding the default settings. -/
def exEngineState : EngineState :=
  { settings := defaultSettings
    profile := exProfile
    history := []
    pendingPredictions := []
    metrics := { total := 0, correct := 0, brierSum := 0 }
    lastFetchAt := none
    decision :=
      { action := .HOLD, reason := .insideNeutralZone, expectedPrice := 0,
        buyEdgePct := none, sellEdgePct := none } }

/-- Witness for C3 at a concrete state and patch. -/
theorem updateSettings_atomic_witness :
    (clampSettings (applyPatch exEngineState.settings exBadPatch)).buyThreshold ≤
      (clampSettings (applyPatch exEngineState.settings exBadPatch)).sellThreshold ∧
    updateSettings exEngineState exBadPatch =
      Except.error "BUY threshold must be higher than SELL threshold" := by
  have h : (clampSettings (applyPatch exEngineState.settings
      exBadPatch)).buyThreshold ≤
      (clampSettings (applyPatch exEngineState.settings
        exBadPatch)).sellThreshold := by
    norm_num [clampSettings, applyPatch, exEngineState, defaultSettings,
      exBadPatch, clamp]
  exact ⟨h, (updateSettings_atomic exEngineState exBadPatch).1 h⟩

/-! ### C8 — per-field freshness in snapshot construction -/

/-- The freshness predicate of a constructed field: non-null value, and an
age that exists, is non-negative and is at most the ceiling. -/
theorem mkField_fresh_iff (t fm : ℚ) (value ts : Option ℚ) :
    (mkField t fm value ts).fresh = true ↔
      (mkField t fm value ts).value.isSome = true ∧
      ∃ a, (mkField t fm value ts).ageMin = some a ∧ 0 ≤ a ∧ a ≤ fm := by
  cases value <;> cases ts <;>
    simp [mkField, and_assoc]

/-- C8: for every field produced by fetchSnapshot, the fresh flag is true iff
the value is non-null and the computed age in minutes is non-negative and at
most the configured freshness ceiling; and whenever the primary price
parses, the snapshot is produced for arbitrary auxiliary data — in
particular a future-dated field (negative age) merely comes out stale and
never causes an error or aborts the snapshot. -/
theorem fetchSnapshot_freshness :
    (∀ (nowMs fm : ℚ) (tal : Option ℚ) (tgju : FeatureKey → TgjuEntry)
        (snap : Snapshot ℚ),
      fetchSnapshot nowMs fm tal tgju = Except.ok snap →
        ∀ key, ((snap.fields key).fresh = true ↔
          (snap.fields key).value.isSome = true ∧
          ∃ a, (snap.fields key).ageMin = some a ∧ 0 ≤ a ∧ a ≤ fm)) ∧
    (∀ (nowMs fm p : ℚ) (tgju : FeatureKey → TgjuEntry),
      ∃ snap, fetchSnapshot nowMs fm (some p) tgju = Except.ok snap) := by
  constructor
  · intro nowMs fm tal tgju snap h key
    cases tal with
    | none =>
      simp [fetchSnapshot, normalizeTalaseaPriceToToman] at h
    | some p =>
      rw [show fetchSnapshot nowMs fm (some p) tgju = Except.ok
          { t := nowMs
            goldPrice := p * TALASEA_TO_TOMAN_MULTIPLIER
            rawPrice := some p
            fields := fun key =>
              mkField nowMs fm
                (normalizeTgjuFieldValueToToman key (tgju key).p false)
                (tgju key).ts } from rfl] at h
      cases h
      exact mkField_fresh_iff nowMs fm _ _
  · intro nowMs fm p tgju
    exact ⟨_, rfl⟩

/-- A TGJU payload whose `ons` entry is present but future-dated by one
minute (negative age). -/
def exTgju : FeatureKey → TgjuEntry := fun _ => { p := some 7, ts := some 60000 }

/-- The snapshot fetchSnapshot builds from `exTgju` at time 0 with ceiling
180. -/
def exFetchedSnap : Snapshot ℚ :=
  { t := 0
    goldPrice := 5 * TALASEA_TO_TOMAN_MULTIPLIER
    rawPrice := some 5
    fields := fun key =>
      mkField 0 180 (normalizeTgjuFieldValueToToman key (some 7) false)
        (some 60000) }

/-- Witness for C8: the snapshot is produced despite every field being
future-dated, and its `ons` field obeys the freshness characterization. -/
theorem fetchSnapshot_freshness_witness :
    ((exFetchedSnap.fields FeatureKey.ons).fresh = true ↔
      (exFetchedSnap.fields FeatureKey.ons).value.isSome = true ∧
      ∃ a, (exFetchedSnap.fields FeatureKey.ons).ageMin = some a ∧
        0 ≤ a ∧ a ≤ 180) ∧
    (∃ snap, fetchSnapshot 0 180 (some 5) exTgju = Except.ok snap) :=
  ⟨fetchSnapshot_freshness.1 0 180 (some 5) exTgju exFetchedSnap rfl
      FeatureKey.ons,
    fetchSnapshot_freshness.2 0 180 5 exTgju⟩

/-! ### C5 — history trim invariants -/

/-- After the retention pass of trim, every surviving snapshot of a
time-sorted window is at or after the cutoff. -/
theorem mem_dropWhile_retention {m : ℚ} :
    ∀ l : List (Snapshot ℚ), l.Pairwise (fun a b => a.t ≤ b.t) →
      ∀ s ∈ l.dropWhile (fun x => decide (x.t < m)), m ≤ s.t := by
  intro l
  induction l with
  | nil =>
    intro _ s hs
    simp [List.dropWhile] at hs
  | cons a l ih =>
    intro hp s hs
    rw [List.pairwise_cons] at hp
    rw [List.dropWhile_cons] at hs
    by_cases ha : a.t < m
    · rw [if_pos (by simpa using ha)] at hs
      exact ih hp.2 s hs
    · rw [if_neg (by simpa using ha)] at hs
      rcases List.mem_cons.mp hs with rfl | hmem
      · exact not_lt.mp ha
      · exact le_trans (not_lt.mp ha) (hp.1 s hmem)

/-- C5: for a time-sorted history window, trim leaves at most
maxInMemoryPoints entries, every surviving entry (the oldest included) is
within the retention horizon of `nowMs`, and the result is a suffix of the
input — trim only removes from the front, preserving the relative order of
survivors. -/
theorem trimHistory_invariants :
    ∀ (retentionHours : ℚ) (maxPoints : ℕ) (nowMs : ℚ)
      (history : List (Snapshot ℚ)),
      history.Pairwise (fun a b => a.t ≤ b.t) →
      (trimHistory retentionHours maxPoints nowMs history).length ≤
        maxPoints ∧
      (∀ s ∈ trimHistory retentionHours maxPoints nowMs history,
        nowMs - s.t ≤ retentionHours * 60 * 60 * 1000) ∧
      List.IsSuffix (trimHistory retentionHours maxPoints nowMs history)
        history := by
  intro R M now l hp
  have hafter : ∀ s ∈ l.dropWhile
      (fun x => decide (x.t < now - R * 60 * 60 * 1000)),
      now - R * 60 * 60 * 1000 ≤ s.t :=
    mem_dropWhile_retention l hp
  unfold trimHistory
  dsimp only
  split_ifs with h
  · refine ⟨?_, ?_, ?_⟩
    · rw [List.length_drop]
      omega
    · intro s hs
      have := hafter s (List.mem_of_mem_drop hs)
      linarith
    · exact (List.drop_suffix _ _).trans (List.dropWhile_suffix _)
  · refine ⟨by omega, ?_, List.dropWhile_suffix _⟩
    intro s hs
    have := hafter s hs
    linarith

/-- Witness history for C5: two sorted points one minute apart. -/
def exHistory : List (Snapshot ℚ) := [snapAt 0 100, snapAt 60000 101]

/-- Witness for C5 at a concrete sorted two-point window with maxPoints 1. -/
theorem trimHistory_invariants_witness :
    exHistory.Pairwise (fun a b => a.t ≤ b.t) ∧
    (trimHistory 24 1 120000 exHistory).length ≤ 1 := by
  have hp : exHistory.Pairwise (fun a b => a.t ≤ b.t) := by
    norm_num [exHistory, snapAt]
  exact ⟨hp, (trimHistory_invariants 24 1 120000 exHistory hp).1⟩

/-! ### C9 — confidence is monotone in coverage and freshness -/

/-- C9: holding the directional conviction (edge) fixed and non-negative,
the confidence clamp(edge × (0.45+0.55·coverage) × (0.5+0.5·freshness), 0, 1)
is monotone non-decreasing in coverage and in freshness over [0, 1]; and a
zero conviction gives zero confidence for every coverage and freshness. -/
theorem confidenceCalc_monotone :
    (∀ e c1 c2 f1 f2 : ℝ, 0 ≤ e → 0 ≤ c1 → c1 ≤ c2 → c2 ≤ 1 →
      0 ≤ f1 → f1 ≤ f2 → f2 ≤ 1 →
      confidenceCalc e c1 f1 ≤ confidenceCalc e c2 f1 ∧
      confidenceCalc e c1 f1 ≤ confidenceCalc e c1 f2) ∧
    (∀ c f : ℝ, confidenceCalc 0 c f = 0) := by
  have hclamp : ∀ x y : ℝ, x ≤ y → clamp x 0 1 ≤ clamp y 0 1 :=
    fun x y h => min_le_min le_rfl (max_le_max le_rfl h)
  constructor
  · intro e c1 c2 f1 f2 he hc1 hc12 hc2 hf1 hf12 hf2
    constructor
    · apply hclamp
      have key : 0 ≤ e * (55 / 100 * (c2 - c1)) * (1 / 2 + 1 / 2 * f1) :=
        mul_nonneg (mul_nonneg he (by linarith)) (by linarith)
      nlinarith [key]
    · apply hclamp
      have key : 0 ≤ e * (45 / 100 + 55 / 100 * c1) *
          (1 / 2 * (f2 - f1)) :=
        mul_nonneg (mul_nonneg he (by linarith)) (by linarith)
      nlinarith [key]
  · intro c f
    simp [confidenceCalc, clamp]

/-- Witness for C9 at conviction 1 and the extreme corners of coverage and
freshness. -/
theorem confidenceCalc_monotone_witness :
    confidenceCalc (1 : ℝ) 0 0 ≤ confidenceCalc 1 1 0 ∧
    confidenceCalc (1 : ℝ) 0 0 ≤ confidenceCalc 1 0 1 :=
  confidenceCalc_monotone.1 1 0 1 0 1 (by norm_num) (by norm_num)
    (by norm_num) (by norm_num) (by norm_num) (by norm_num) (by norm_num)

/-! ### C4 — reliability resolution -/

/-- A pending prediction is resolvable when the history holds a gold price
at or after predictionTime + horizon. -/
def resolvable (history : List (Snapshot ℚ)) (horizonMs : ℚ)
    (p : PendingPrediction) : Bool :=
  (valueAtOrAfter (p.t + horizonMs) history).isSome

/-- The contribution of one prediction to `correct` when it resolves:
1 when the predicted direction (pUp ≥ 0.5) matches the realized direction
(realized > basePrice), else 0; 0 when still pending. -/
def correctIncrement (history : List (Snapshot ℚ)) (horizonMs : ℚ)
    (pred : PendingPrediction) : ℕ :=
  match valueAtOrAfter (pred.t + horizonMs) history with
  | none => 0
  | some realized =>
    if (if 1 / 2 ≤ pred.pUp then (1 : ℚ) else 0) =
        (if pred.basePrice < realized then (1 : ℚ) else 0) then 1 else 0

/-- The contribution of one prediction to `brierSum` when it resolves:
(clamp(pUp, 0, 1) - actualUp)²; 0 when still pending. -/
def brierIncrement (history : List (Snapshot ℚ)) (horizonMs : ℚ)
    (pred : PendingPrediction) : ℚ :=
  match valueAtOrAfter (pred.t + horizonMs) history with
  | none => 0
  | some realized =>
    (clamp pred.pUp 0 1 -
      (if pred.basePrice < realized then (1 : ℚ) else 0)) ^ 2

/-- Full characterization of one updateMetrics pass: resolvable predictions
leave the pending list, each adding 1 to total and its direction-match and
Brier contributions; unresolvable ones stay pending in order, untouched. -/
theorem updateMetricsGo_spec (history : List (Snapshot ℚ)) (hms : ℚ) :
    ∀ (pending : List PendingPrediction) (m : Metrics),
      (updateMetricsGo history hms m pending).2 =
        pending.filter (fun p => !(resolvable history hms p)) ∧
      (updateMetricsGo history hms m pending).1.total =
        m.total + (pending.filter (resolvable history hms)).length ∧
      (updateMetricsGo history hms m pending).1.correct =
        m.correct + (pending.map (correctIncrement history hms)).sum ∧
      (updateMetricsGo history hms m pending).1.brierSum =
        m.brierSum + (pending.map (brierIncrement history hms)).sum := by
  intro pending
  induction pending with
  | nil =>
    intro m
    simp [updateMetricsGo]
  | cons p rest ih =>
    intro m
    cases hv : valueAtOrAfter (p.t + hms) history with
    | none =>
      have hr : resolvable history hms p = false := by
        simp [resolvable, hv]
      have hc : correctIncrement history hms p = 0 := by
        simp [correctIncrement, hv]
      have hb : brierIncrement history hms p = 0 := by
        simp [brierIncrement, hv]
      simp only [updateMetricsGo, hv, List.filter_cons, hr, Bool.not_false,
        Bool.not_true, if_true, if_false, List.map_cons, List.sum_cons, hc,
        hb]
      refine ⟨by simp [(ih m).1], ?_, ?_, ?_⟩
      · simpa using (ih m).2.1
      · simpa using (ih m).2.2.1
      · simpa using (ih m).2.2.2
    | some realized =>
      have hr : resolvable history hms p = true := by
        simp [resolvable, hv]
      have hc : correctIncrement history hms p =
          (if (if 1 / 2 ≤ p.pUp then (1 : ℚ) else 0) =
            (if p.basePrice < realized then (1 : ℚ) else 0) then 1 else 0) := by
        simp [correctIncrement, hv]
      have hb : brierIncrement history hms p =
          (clamp p.pUp 0 1 -
            (if p.basePrice < realized then (1 : ℚ) else 0)) ^ 2 := by
        simp [brierIncrement, hv]
      have hgo : updateMetricsGo history hms m (p :: rest) =
          updateMetricsGo history hms
            { total := m.total + 1
              correct := m.correct +
                (if (if 1 / 2 ≤ p.pUp then (1 : ℚ) else 0) =
                  (if p.basePrice < realized then (1 : ℚ) else 0)
                  then 1 else 0)
              brierSum := m.brierSum +
                (clamp p.pUp 0 1 -
                  (if p.basePrice < realized then (1 : ℚ) else 0)) ^ 2 }
            rest := by
        rw [updateMetricsGo, hv]
      refine ⟨?_, ?_, ?_, ?_⟩
      · rw [hgo, (ih _).1, List.filter_cons, hr]
        simp
      · rw [hgo, (ih _).2.1, List.filter_cons, hr]
        simp
        omega
      · rw [hgo, (ih _).2.2.1, List.map_cons, List.sum_cons, hc]
        simp
        omega
      · rw [hgo, (ih _).2.2.2, List.map_cons, List.sum_cons, hb]
        ring

/-- C4: on a tick, updateMetrics resolves exactly the pending predictions
whose horizon has a realized gold price (valueAtOrAfter pred.t + horizon):
each adds 1 to total, adds 1 to correct iff (pUp ≥ 0.5) equals
(realized > basePrice), and adds (clamp(pUp,0,1) − actualUp)² to brierSum;
predictions with no realized price remain pending unchanged. In particular,
a pUp = 0.7 prediction at base 100 resolved against a later price 110 adds 1
to total and correct and (0.7 − 1)² = 0.09 to brierSum, leaving no pending
prediction. -/
theorem updateMetrics_resolves_pending :
    (∀ (history : List (Snapshot ℚ)) (horizonMin : ℚ) (m : Metrics)
        (pending : List PendingPrediction),
      (updateMetrics history horizonMin m pending).2 =
        pending.filter
          (fun p => !(resolvable history (horizonMin * 60000) p)) ∧
      (updateMetrics history horizonMin m pending).1.total =
        m.total +
          (pending.filter (resolvable history (horizonMin * 60000))).length ∧
      (updateMetrics history horizonMin m pending).1.correct =
        m.correct +
          (pending.map (correctIncrement history (horizonMin * 60000))).sum ∧
      (updateMetrics history horizonMin m pending).1.brierSum =
        m.brierSum +
          (pending.map (brierIncrement history (horizonMin * 60000))).sum) ∧
    updateMetrics [snapAt 0 100, snapAt 1800000 110] 30
        { total := 0, correct := 0, brierSum := 0 }
        [{ t := 0, basePrice := 100, pUp := 7 / 10 }] =
      ({ total := 1, correct := 1, brierSum := 9 / 100 }, []) := by
  constructor
  · intro history horizonMin m pending
    exact updateMetricsGo_spec history (horizonMin * 60000) pending m
  · norm_num [updateMetrics, updateMetricsGo, snapAt, clamp, Prod.ext_iff]
    have hv : valueAtOrAfter (1800000 : ℚ)
        [{ t := 0, goldPrice := 100, rawPrice := none,
           fields := fun _ => emptyFieldQ },
         { t := 1800000, goldPrice := 110, rawPrice := none,
           fields := fun _ => emptyFieldQ }] = some 110 := by
      norm_num [valueAtOrAfter]
    rw [hv]
    norm_num

/-! ### C7 — pUp bounds and the neutral empty-history signal -/

/-- The logistic output always lies in [0, 1]. -/
theorem sigmoid_mem_unit (x : ℝ) : 0 ≤ sigmoid x ∧ sigmoid x ≤ 1 := by
  unfold sigmoid
  split_ifs with h
  · have hexp := Real.exp_pos (-x)
    constructor
    · positivity
    · rw [div_le_one (by linarith)]
      linarith
  · have hexp := Real.exp_pos x
    constructor
    · positivity
    · rw [div_le_one (by linarith)]
      linarith

/-- C7: the scorer's pUp always lies in [0, 1], and on an empty history
window buildSignal returns the neutral signal pUp = 0.5, confidence = 0,
score = 0. -/
theorem buildSignal_pUp_unit_and_neutral :
    (∀ (hm nowMs : ℝ) (history : List (Snapshot ℝ)),
      0 ≤ (buildSignal hm nowMs history).pUp ∧
      (buildSignal hm nowMs history).pUp ≤ 1) ∧
    (∀ hm nowMs : ℝ,
      (buildSignal hm nowMs []).pUp = 1 / 2 ∧
      (buildSignal hm nowMs []).confidence = 0 ∧
      (buildSignal hm nowMs []).score = 0) := by
  constructor
  · intro hm nowMs history
    cases hl : history.getLast? with
    | none =>
      have hp : (buildSignal hm nowMs history).pUp = 1 / 2 := by
        simp only [buildSignal, hl]
      rw [hp]
      norm_num
    | some latest =>
      constructor
      · simp only [buildSignal, hl]
        exact (sigmoid_mem_unit _).1
      · simp only [buildSignal, hl]
        exact (sigmoid_mem_unit _).2
  · intro hm nowMs
    exact ⟨rfl, rfl, rfl⟩

/-! ### Witnesses for C6 and C10 -/

/-- A persisted row with timestamp 0 and gold price 5 and no auxiliary
data. -/
def exRawSnapshot : RawSnapshot :=
  { t := some 0, goldPrice := some 5, rawPrice := none, fields := fun _ => none }

/-- The snapshot normalizeSnapshot rebuilds from `exRawSnapshot` with
freshness ceiling 180. -/
def exNormalizedSnap : Snapshot ℚ :=
  { t := 0
    goldPrice := 5
    rawPrice := none
    fields := fun key =>
      mkField 0 180 (normalizeTgjuFieldValueToToman key none false) none }

/-- Witness for C6 at a concrete persisted row: normalization succeeds and
the rebuilt field carries the already-adjusted flag. -/
theorem unit_normalization_idempotent_witness :
    normalizeSnapshot 180 exRawSnapshot = some exNormalizedSnap ∧
    (exNormalizedSnap.fields FeatureKey.silver).unitAdjusted = true :=
  ⟨rfl,
    unit_normalization_idempotent.2 180 exRawSnapshot exNormalizedSnap rfl
      FeatureKey.silver⟩

/-- Witness for C10: over the concrete two-point history whose auxiliary
fields are all stale, momentum and returns of the `ons` series are empty. -/
theorem getSeriesValue_freshness_filter_witness :
    momentum exHistory (SeriesKey.feat FeatureKey.ons) 5 = none ∧
    returnsOver exHistory (SeriesKey.feat FeatureKey.ons) 5 = [] := by
  have hstale : ∀ s ∈ exHistory, (s.fields FeatureKey.ons).fresh = false := by
    intro s hs
    rcases List.mem_cons.mp hs with rfl | hs
    · rfl
    · rcases List.mem_cons.mp hs with rfl | hs
      · rfl
      · simp at hs
  exact getSeriesValue_freshness_filter.2.2 exHistory FeatureKey.ons 5 hstale

end TalaseaWatcher
